import Mathlib

/-!
Verification of the layout execution engine and resilience utilities of the
ghostty-layouts Raycast extension.

The TypeScript sources are embedded shallowly:

* `src/types.ts` — the `Pane`/`Split` layout tree becomes `Node`.
* `src/utils.ts` — `createLayoutStructure`, `runCommand`, `createSplit`,
  `navigateToPane`, `ensureGhosttyFrontmost` are modelled as generators of an
  observable call trace (`Ev` events) issued to the automation target; the
  adaptive waits are recorded as tagged wait events.  `withRetry` and
  `CircuitBreaker` are modelled as pure state/trace functions.
* `src/services/adaptive-delay.ts` — `AdaptiveDelay` / `ContextualDelay`
  become pure state machines; JavaScript number arithmetic is modelled with
  exact rationals (all values reached in the verified scenarios are exactly
  representable, and the clamp-based bounds arguments are independent of
  rounding).
* `src/domain/paths.ts` — `expandHomePath`, `resolveWorkingDirectory`.

Trace-producing functions assume the happy path of each automation primitive
(the executions the claims quantify over complete without error); the
environment-dependent behaviour of `ensureGhosttyFrontmost` is modelled
separately with an explicit environment of primitive outcomes.
-/

/-- Split direction, `"vertical" | "horizontal"` from `src/types.ts`. -/
inductive SplitDir
  | vertical
  | horizontal
deriving DecidableEq, Repr

/-- Navigation direction, the argument of `navigateToPane` in `src/utils.ts`. -/
inductive NavDir
  | left
  | right
  | up
  | down
deriving DecidableEq, Repr

/-- The layout tree of `src/types.ts`: a `Pane` is a leaf with a shell command,
an optional working-directory override and an informational size percentage;
a `Split` is a direction plus an ordered list of children. -/
inductive Node
  | pane (command : String) (workingDirectory : Option String) (size : Option Nat)
  | split (direction : SplitDir) (panes : List Node)
deriving Repr

/-- Observable calls issued to the automation target by the engine of
`src/utils.ts`.  `ensure` marks an invocation of the focus-assurance
operation `ensureGhosttyFrontmost` (its internal activate/query protocol is
modelled separately by `ensureGhosttyFrontmost` below); `waitTag` records an
adaptive-delay wait keyed by its context tag; the remaining constructors are
the split / navigate / send-text / press-enter capabilities. -/
inductive Ev
  | ensure
  | waitTag (tag : String)
  | splitEv (d : SplitDir)
  | navigate (d : NavDir)
  | sendText (text : String)
  | pressEnter
deriving DecidableEq, Repr

/-- `workingDirectory.replace(/^~/, process.env.HOME)` from `runCommand`
(`src/utils.ts` line 327): a leading tilde character is replaced by the home
directory. -/
def expandTildeHome (home : String) (s : String) : String :=
  match s.data with
  | '~' :: rest => home ++ String.mk rest
  | _ => s

/-- JavaScript `a || b` on optional strings (`structure.workingDirectory ||
rootDirectory` in `createLayoutStructure`): an absent or empty left operand
falls through to the right one. -/
def jsOrElse (a b : Option String) : Option String :=
  match a with
  | some s => if s.isEmpty then b else some s
  | none => b

/-- The command text built by `runCommand` (`src/utils.ts` lines 323-331):
when a (non-empty) working directory is supplied, the sent text is
`cd "<expanded dir>" && <command>`; otherwise the bare command. -/
def runCommandText (home : String) (command : String)
    (workingDirectory : Option String) : String :=
  match workingDirectory with
  | some d =>
      if d.isEmpty then command
      else "cd \"" ++ expandTildeHome home d ++ "\" && " ++ command
  | none => command

/-- Trace of `runCommand` (`src/utils.ts` lines 318-377) on its happy path:
focus assurance, then the keystroke send of the built text followed by the
enter key (key code 36), then the adaptive wait tagged `"command"`. -/
def runCommandTrace (home : String) (command : String)
    (workingDirectory : Option String) : List Ev :=
  [Ev.ensure, Ev.sendText (runCommandText home command workingDirectory),
   Ev.pressEnter, Ev.waitTag "command"]

/-- Trace of `createSplit` (`src/utils.ts` lines 261-296) on its happy path:
focus assurance, the split keystroke for the requested direction, then the
adaptive wait tagged `"split"`. -/
def createSplitTrace (d : SplitDir) : List Ev :=
  [Ev.ensure, Ev.splitEv d, Ev.waitTag "split"]

/-- Trace of `navigateToPane` (`src/utils.ts` lines 298-316): focus
assurance, the navigation key code, then the adaptive wait tagged
`"navigate"`. -/
def navigateTrace (d : NavDir) : List Ev :=
  [Ev.ensure, Ev.navigate d, Ev.waitTag "navigate"]

/-- The back-navigation loop of `createLayoutStructure` (`src/utils.ts`
lines 427-434): one `navigateToPane("left")` / `navigateToPane("up")` per
child beyond the first, i.e. `k` repetitions for a split with `k + 1`
children. -/
def backNavTrace (d : SplitDir) : Nat → List Ev
  | 0 => []
  | k + 1 =>
      navigateTrace (match d with
        | SplitDir.vertical => NavDir.left
        | SplitDir.horizontal => NavDir.up) ++ backNavTrace d k

mutual

/-- Trace of `createLayoutStructure` (`src/utils.ts` lines 379-436): focus
assurance and the `"structure-start"` wait, then either the pane branch
(`runCommand` with `workingDirectory || rootDirectory`, then the
`"pane-command"` wait) or the split branch (the child loop followed by the
back-navigation loop). -/
def createLayoutStructureTrace (home : String) (node : Node)
    (rootDirectory : Option String) (useCurrentTab : Bool) : List Ev :=
  [Ev.ensure, Ev.waitTag "structure-start"] ++
  (match node with
   | Node.pane c wd _ =>
       runCommandTrace home c (jsOrElse wd rootDirectory) ++
       [Ev.waitTag "pane-command"]
   | Node.split d panes =>
       childLoopTrace home rootDirectory d useCurrentTab panes 0 ++
       backNavTrace d (panes.length - 1))

/-- The `for (let i = 0; i < panes.length; i++)` loop of
`createLayoutStructure` (`src/utils.ts` lines 401-425), with the loop index
threaded explicitly.  For `i > 0` (guarded redundantly by
`i > 0 || !useCurrentTab` exactly as in the source) a split is created and
focus navigated forward; then the child is executed: a nested split recurses
with `useCurrentTab = false`, a pane runs its command with
`pane.workingDirectory || rootDirectory`. -/
def childLoopTrace (home : String) (rootDirectory : Option String)
    (d : SplitDir) (useCurrentTab : Bool) : List Node → Nat → List Ev
  | [], _ => []
  | p :: rest, i =>
      (if 0 < i || !useCurrentTab then
        (if 0 < i then
          createSplitTrace d ++
          navigateTrace (match d with
            | SplitDir.vertical => NavDir.right
            | SplitDir.horizontal => NavDir.down)
        else [])
      else []) ++
      (match p with
       | Node.split d' panes' =>
           createLayoutStructureTrace home (Node.split d' panes')
             rootDirectory false
       | Node.pane c wd _ =>
           runCommandTrace home c (jsOrElse wd rootDirectory)) ++
      childLoopTrace home rootDirectory d useCurrentTab rest (i + 1)

end

/-- The forward navigation direction of a split (`src/utils.ts` lines
408-412): `"right"` for vertical splits, `"down"` for horizontal ones. -/
def forwardNavDir : SplitDir → NavDir
  | SplitDir.vertical => NavDir.right
  | SplitDir.horizontal => NavDir.down

/-- The backward navigation direction of a split (`src/utils.ts` lines
429-433): `"left"` for vertical splits, `"up"` for horizontal ones. -/
def backwardNavDir : SplitDir → NavDir
  | SplitDir.vertical => NavDir.left
  | SplitDir.horizontal => NavDir.up

/-- Observer: the navigation directions occurring in a trace, in order. -/
def navList (tr : List Ev) : List NavDir :=
  tr.filterMap (fun e =>
    match e with
    | Ev.navigate d => some d
    | _ => none)

/-- Observer: the texts sent to the terminal, in order. -/
def sendTexts (tr : List Ev) : List String :=
  tr.filterMap (fun e =>
    match e with
    | Ev.sendText s => some s
    | _ => none)

/-- An event that acts on the terminal contents or focus: split, navigate,
send-text or press-enter (as opposed to focus assurance and waits). -/
def isActionEv : Ev → Bool
  | Ev.splitEv _ => true
  | Ev.navigate _ => true
  | Ev.sendText _ => true
  | Ev.pressEnter => true
  | _ => false

/-- Observer: the action events of a trace, in order. -/
def actionTrace (tr : List Ev) : List Ev :=
  tr.filter isActionEv

/-- Displacement of one event on the (x, y) focus grid: navigate right/left
moves x by ±1, down/up moves y by ±1, everything else does not move. -/
def navDelta : Ev → Int × Int
  | Ev.navigate NavDir.left => (-1, 0)
  | Ev.navigate NavDir.right => (1, 0)
  | Ev.navigate NavDir.up => (0, -1)
  | Ev.navigate NavDir.down => (0, 1)
  | _ => (0, 0)

/-- Net navigation offset of a whole trace. -/
def netOffset : List Ev → Int × Int
  | [] => (0, 0)
  | e :: tr => navDelta e + netOffset tr

/-- The opposite of a navigation direction. -/
def navOpposite : NavDir → NavDir
  | NavDir.left => NavDir.right
  | NavDir.right => NavDir.left
  | NavDir.up => NavDir.down
  | NavDir.down => NavDir.up

theorem netOffset_append (a b : List Ev) :
    netOffset (a ++ b) = netOffset a + netOffset b := by
  induction a with
  | nil => simp [netOffset]
  | cons e tl ih => simp [netOffset, ih, add_assoc]

theorem backNav_netOffset (d : SplitDir) (k : Nat) :
    netOffset (backNavTrace d k) =
      (match d with
       | SplitDir.vertical => (-(k : Int), 0)
       | SplitDir.horizontal => (0, -(k : Int))) := by
  induction k with
  | zero => cases d <;> simp [backNavTrace, netOffset]
  | succ k ih =>
      cases d <;>
        simp [backNavTrace, netOffset_append, ih, navigateTrace, netOffset,
          navDelta, Prod.ext_iff]

theorem backNav_navList (d : SplitDir) (k : Nat) :
    navList (backNavTrace d k) = List.replicate k (backwardNavDir d) := by
  induction k with
  | zero => simp [backNavTrace, navList]
  | succ k ih =>
      cases d <;>
        simp [backNavTrace, navList, navigateTrace, backwardNavDir,
          List.replicate_succ] <;>
        simpa [navList, backwardNavDir] using ih

theorem childLoop_netOffset (home : String) (root : Option String)
    (d : SplitDir) (flag : Bool) :
    ∀ (l : List Node) (i : Nat),
      (∀ p ∈ l, ∀ f : Bool,
        netOffset (createLayoutStructureTrace home p root f) = (0, 0)) →
      netOffset (childLoopTrace home root d flag l i) =
        (match d with
         | SplitDir.vertical =>
             (((if i = 0 then l.length - 1 else l.length : Nat) : Int), 0)
         | SplitDir.horizontal =>
             (0, ((if i = 0 then l.length - 1 else l.length : Nat) : Int)))
  | [], i, _ => by cases d <;> simp [childLoopTrace, netOffset]
  | p :: rest, i, h => by
      have hp : ∀ f : Bool,
          netOffset (createLayoutStructureTrace home p root f) = (0, 0) :=
        h p (List.mem_cons_self p rest)
      have hrest := childLoop_netOffset home root d flag rest (i + 1)
        (fun q hq f => h q (List.mem_cons_of_mem p hq) f)
      cases p with
      | pane c wd sz =>
          cases d <;> cases i <;>
            simp [childLoopTrace, netOffset_append, hrest, createSplitTrace,
              navigateTrace, runCommandTrace, netOffset, navDelta,
              Prod.ext_iff] <;>
            omega
      | split d' panes' =>
          have hp' := hp false
          simp [createLayoutStructureTrace, netOffset_append, netOffset,
            navDelta, Prod.ext_iff] at hp'
          cases d <;> cases i <;>
            simp [childLoopTrace, netOffset_append, hrest,
              createSplitTrace, navigateTrace, netOffset, navDelta,
              Prod.ext_iff] <;>
            omega

theorem netOffset_structure (home : String) (root : Option String)
    (n : Node) (flag : Bool) :
    netOffset (createLayoutStructureTrace home n root flag) = (0, 0) := by
  match n with
  | Node.pane c wd sz =>
      simp [createLayoutStructureTrace, runCommandTrace, netOffset, navDelta]
  | Node.split d panes =>
      have hmem : ∀ p ∈ panes, ∀ f : Bool,
          netOffset (createLayoutStructureTrace home p root f) = (0, 0) := by
        intro p hpmem f
        have hsz : sizeOf p < sizeOf (Node.split d panes) := by
          have := List.sizeOf_lt_of_mem hpmem
          simp only [Node.split.sizeOf_spec]
          omega
        exact netOffset_structure home root p f
      have hloop := childLoop_netOffset home root d flag panes 0 hmem
      have hback := backNav_netOffset d (panes.length - 1)
      cases d <;>
        simp [createLayoutStructureTrace, netOffset_append, hloop, hback,
          netOffset, navDelta, Prod.ext_iff]
termination_by sizeOf n

theorem childLoop_useCurrentTab (home : String) (root : Option String)
    (d : SplitDir) (l : List Node) :
    ∀ i : Nat,
      childLoopTrace home root d true l i =
        childLoopTrace home root d false l i := by
  induction l with
  | nil => intro i; simp [childLoopTrace]
  | cons p rest ih =>
      intro i
      cases d <;> cases p <;> cases i <;> simp [childLoopTrace, ih]

/-- C10: for every layout tree and root directory the `useCurrentTab` flag is
observationally inert: `createLayoutStructure(tree, root, true)` issues
exactly the same call sequence as `createLayoutStructure(tree, root, false)`,
because the split/navigate pair is guarded by `i > 0` independently of the
flag. -/
theorem useCurrentTab_observationally_inert (home : String)
    (root : Option String) (n : Node) :
    createLayoutStructureTrace home n root true =
      createLayoutStructureTrace home n root false := by
  cases n with
  | pane c wd sz => simp [createLayoutStructureTrace]
  | split d panes => simp [createLayoutStructureTrace, childLoop_useCurrentTab]

/-- C1: executing the tree
`{direction: "vertical", panes: [{command: "nvim ."}, {command: "zsh"}]}` with
root directory `"/repo"` and `useCurrentTab = false` starts with a
focus-assurance activation, and the action calls issued to the automation
target are exactly: send `cd "/repo" && nvim .` + enter, split vertical,
navigate right, send `cd "/repo" && zsh` + enter, navigate left — in this
order, with no other split or navigate call. -/
theorem end_to_end_two_pane_vertical (home : String) :
    (createLayoutStructureTrace home
        (Node.split SplitDir.vertical
          [Node.pane "nvim ." none none, Node.pane "zsh" none none])
        (some "/repo") false).head? = some Ev.ensure ∧
    actionTrace (createLayoutStructureTrace home
        (Node.split SplitDir.vertical
          [Node.pane "nvim ." none none, Node.pane "zsh" none none])
        (some "/repo") false) =
      [Ev.sendText "cd \"/repo\" && nvim .", Ev.pressEnter,
       Ev.splitEv SplitDir.vertical, Ev.navigate NavDir.right,
       Ev.sendText "cd \"/repo\" && zsh", Ev.pressEnter,
       Ev.navigate NavDir.left] := by
  constructor
  · simp [createLayoutStructureTrace]
  · simp [createLayoutStructureTrace, childLoopTrace, runCommandTrace,
      createSplitTrace, navigateTrace, backNavTrace, runCommandText, jsOrElse,
      expandTildeHome, actionTrace, isActionEv]
    decide

/-- C2: for every `Split` executed by the engine, the back-navigation block
issued after the last child consists of exactly `panes.length - 1` navigate
calls, all in the direction opposite to the forward direction (`left` for
vertical, `up` for horizontal), mirroring in reverse the `panes.length - 1`
forward navigations issued before entering children `1..n`; the net
navigation offset over the whole split execution is zero. -/
theorem split_navigation_round_trip (home : String) (root : Option String)
    (flag : Bool) (d : SplitDir) (panes : List Node) :
    netOffset (createLayoutStructureTrace home (Node.split d panes) root flag)
        = (0, 0) ∧
    createLayoutStructureTrace home (Node.split d panes) root flag =
      [Ev.ensure, Ev.waitTag "structure-start"] ++
        childLoopTrace home root d flag panes 0 ++
        backNavTrace d (panes.length - 1) ∧
    navList (backNavTrace d (panes.length - 1)) =
      List.replicate (panes.length - 1) (backwardNavDir d) ∧
    backwardNavDir d = navOpposite (forwardNavDir d) ∧
    navList (backNavTrace d (panes.length - 1)) =
      ((List.replicate (panes.length - 1) (forwardNavDir d)).reverse).map
        navOpposite ∧
    netOffset (childLoopTrace home root d flag panes 0) =
      (match d with
       | SplitDir.vertical => (((panes.length - 1 : Nat) : Int), 0)
       | SplitDir.horizontal => (0, ((panes.length - 1 : Nat) : Int))) := by
  have hchildren : ∀ p ∈ panes, ∀ f : Bool,
      netOffset (createLayoutStructureTrace home p root f) = (0, 0) :=
    fun p _ f => netOffset_structure home root p f
  refine ⟨netOffset_structure home root (Node.split d panes) flag, ?_, ?_, ?_, ?_, ?_⟩
  · simp [createLayoutStructureTrace]
  · exact backNav_navList d (panes.length - 1)
  · cases d <;> rfl
  · rw [backNav_navList]
    cases d <;> simp [backwardNavDir, forwardNavDir, navOpposite,
      List.map_replicate]
  · exact childLoop_netOffset home root d flag panes 0 hchildren

/-- C3 counterexample: for the pane `{command: "zsh", workingDirectory:
"src"}` under root `"/repo"`, the engine sends `cd "src" && zsh` — the
relative override is used outright (`workingDirectory || rootDirectory` in
`createLayoutStructure`), not joined against the root as the claim states,
so the sent text is not `cd "/repo/src" && zsh`. -/
theorem relative_override_not_joined :
    sendTexts (createLayoutStructureTrace "/Users/u"
        (Node.pane "zsh" (some "src") none) (some "/repo") false) =
      ["cd \"src\" && zsh"] ∧
    ¬ sendTexts (createLayoutStructureTrace "/Users/u"
        (Node.pane "zsh" (some "src") none) (some "/repo") false) =
      ["cd \"/repo/src\" && zsh"] := by
  constructor
  · simp [createLayoutStructureTrace, runCommandTrace, runCommandText,
      jsOrElse, expandTildeHome, sendTexts]
    decide
  · simp [createLayoutStructureTrace, runCommandTrace, runCommandText,
      jsOrElse, expandTildeHome, sendTexts]
    decide

/-- C3 amended: for every pane executed by the engine with root directory
`r`: an absolute or tilde-prefixed `workingDirectory` override is used
outright (tilde expanded to the home directory); a relative override is
likewise used outright — never joined against the enclosing root `r`; an
absent override inherits `r`; and the resulting directory `d` is what the
sent command text is prefixed with, i.e. the text sent is exactly
`cd "d" && <command>`.

The conjuncts cover every override/root combination: a non-empty override
(absolute, tilde-prefixed or relative alike) is used outright with its
leading tilde expanded; an empty-string override is falsy in JavaScript and
behaves exactly like an absent one for every root (trace equality); an
absent override inherits a non-empty root; with no root, or an empty-string
(falsy) root, the bare command is sent; the final two conjuncts pin down
the tilde expansion itself. -/
theorem pane_directory_resolution :
    (∀ (home c dir : String) (root : Option String) (flag : Bool),
      dir.isEmpty = false →
      sendTexts (createLayoutStructureTrace home
          (Node.pane c (some dir) none) root flag) =
        ["cd \"" ++ expandTildeHome home dir ++ "\" && " ++ c]) ∧
    (∀ (home c : String) (root : Option String) (flag : Bool),
      createLayoutStructureTrace home (Node.pane c (some "") none)
          root flag =
        createLayoutStructureTrace home (Node.pane c none none) root flag) ∧
    (∀ (home c r : String) (flag : Bool), r.isEmpty = false →
      sendTexts (createLayoutStructureTrace home (Node.pane c none none)
          (some r) flag) =
        ["cd \"" ++ expandTildeHome home r ++ "\" && " ++ c]) ∧
    (∀ (home c : String) (flag : Bool),
      sendTexts (createLayoutStructureTrace home (Node.pane c none none)
          none flag) = [c]) ∧
    (∀ (home c : String) (flag : Bool),
      sendTexts (createLayoutStructureTrace home (Node.pane c none none)
          (some "") flag) = [c]) ∧
    (∀ home s : String, expandTildeHome home ("~" ++ s) = home ++ s) ∧
    (∀ home s : String, s.data.head? ≠ some '~' →
      expandTildeHome home s = s) := by
  have hempty : ("" : String).isEmpty = true := by decide
  refine ⟨?_, ?_, ?_, ?_, ?_, ?_, ?_⟩
  · intro home c dir root flag h
    simp [createLayoutStructureTrace, runCommandTrace, runCommandText,
      jsOrElse, sendTexts, h]
  · intro home c root flag
    simp [createLayoutStructureTrace, runCommandTrace, runCommandText,
      jsOrElse, hempty]
  · intro home c r flag h
    simp [createLayoutStructureTrace, runCommandTrace, runCommandText,
      jsOrElse, sendTexts, h]
  · intro home c flag
    simp [createLayoutStructureTrace, runCommandTrace, runCommandText,
      jsOrElse, sendTexts]
  · intro home c flag
    simp [createLayoutStructureTrace, runCommandTrace, runCommandText,
      jsOrElse, sendTexts, hempty]
  · intro home s
    have hdata : ("~" ++ s).data = '~' :: s.data := by
      simp [String.data_append]
    simp [expandTildeHome, hdata]
  · intro home s h
    unfold expandTildeHome
    split
    · next rest heq =>
        exact absurd (by rw [heq]; rfl) h
    · rfl

theorem pane_directory_resolution_witness :
    ("~/w" : String).isEmpty = false ∧
    sendTexts (createLayoutStructureTrace "/h"
        (Node.pane "zsh" (some "~/w") none) (some "/repo") false) =
      ["cd \"" ++ expandTildeHome "/h" "~/w" ++ "\" && " ++ "zsh"] ∧
    createLayoutStructureTrace "/h" (Node.pane "zsh" (some "") none)
        (some "/repo") false =
      createLayoutStructureTrace "/h" (Node.pane "zsh" none none)
        (some "/repo") false ∧
    ("/repo" : String).isEmpty = false ∧
    sendTexts (createLayoutStructureTrace "/h" (Node.pane "zsh" none none)
        (some "/repo") true) =
      ["cd \"" ++ expandTildeHome "/h" "/repo" ++ "\" && " ++ "zsh"] ∧
    sendTexts (createLayoutStructureTrace "/h" (Node.pane "zsh" none none)
        (some "") true) = ["zsh"] ∧
    ("/r" : String).data.head? ≠ some '~' ∧
    expandTildeHome "/h" "/r" = "/r" :=
  ⟨by decide,
   pane_directory_resolution.1 "/h" "zsh" "~/w" (some "/repo") false
     (by decide),
   pane_directory_resolution.2.1 "/h" "zsh" (some "/repo") false,
   by decide,
   pane_directory_resolution.2.2.1 "/h" "zsh" "/repo" true (by decide),
   pane_directory_resolution.2.2.2.2.1 "/h" "zsh" true,
   by decide,
   pane_directory_resolution.2.2.2.2.2.2 "/h" "/r" (by decide)⟩

/-- State of `AdaptiveDelay` (`src/services/adaptive-delay.ts` lines 1-20):
bounds fixed at construction, streak counters, the current delay and the
rolling history of realized delays.  JavaScript number arithmetic is
modelled with exact rationals; every value reached in the verified
scenarios is exactly representable. -/
structure AdaptiveDelay where
  baseDelay : ℚ
  minDelay : ℚ
  maxDelay : ℚ
  successCount : Nat
  failureCount : Nat
  currentDelay : ℚ
  delayHistory : List ℚ
deriving DecidableEq, Repr

namespace AdaptiveDelay

/-- `new AdaptiveDelay(base, min, max)`: counters start at 0, history empty,
`currentDelay = baseDelay`. -/
def init (b mn mx : ℚ) : AdaptiveDelay :=
  { baseDelay := b, minDelay := mn, maxDelay := mx,
    successCount := 0, failureCount := 0,
    currentDelay := b, delayHistory := [] }

/-- `maxHistorySize = 10`. -/
def maxHistorySize : Nat := 10

/-- `getCurrentDelay()`: `Math.round(currentDelay)`; JavaScript rounds half
up, `Math.round(x) = ⌊x + 1/2⌋`. -/
def getCurrentDelay (s : AdaptiveDelay) : ℤ :=
  ⌊s.currentDelay + 1 / 2⌋

/-- `wait()` (lines 22-29): suspends for the rounded current delay, pushes
the realized value onto the history and shifts the oldest entry off once the
history exceeds `maxHistorySize`; returns the realized delay. -/
def wait (s : AdaptiveDelay) : ℤ × AdaptiveDelay :=
  let delay := s.getCurrentDelay
  let hist := s.delayHistory ++ [(delay : ℚ)]
  (delay,
   { s with delayHistory :=
       if hist.length > maxHistorySize then hist.drop 1 else hist })

/-- `adjustDelay()` (lines 43-56): at a success streak of ≥ 3 shrink toward
`minDelay` by ×0.8, else at a failure streak of ≥ 2 grow toward `maxDelay`
by ×1.5; then saturate either counter from ≥ 5 down to 3. -/
def adjustDelay (s : AdaptiveDelay) : AdaptiveDelay :=
  let s1 :=
    if s.successCount ≥ 3 then
      { s with currentDelay := max s.minDelay (s.currentDelay * (0.8 : ℚ)) }
    else if s.failureCount ≥ 2 then
      { s with currentDelay := min s.maxDelay (s.currentDelay * (1.5 : ℚ)) }
    else s
  let s2 :=
    if s1.successCount ≥ 5 then { s1 with successCount := 3 } else s1
  if s2.failureCount ≥ 5 then { s2 with failureCount := 3 } else s2

/-- `recordSuccess()` (lines 31-35): `successCount++`,
`failureCount = Math.max(0, failureCount - 1)` (truncated subtraction), then
`adjustDelay()`. -/
def recordSuccess (s : AdaptiveDelay) : AdaptiveDelay :=
  adjustDelay { s with successCount := s.successCount + 1,
                       failureCount := s.failureCount - 1 }

/-- `recordFailure()` (lines 37-41): `failureCount++`,
`successCount = Math.max(0, successCount - 1)`, then `adjustDelay()`. -/
def recordFailure (s : AdaptiveDelay) : AdaptiveDelay :=
  adjustDelay { s with failureCount := s.failureCount + 1,
                       successCount := s.successCount - 1 }

/-- `reset()` (lines 62-67): restore `currentDelay` to `baseDelay`, clear
both counters and the history. -/
def reset (s : AdaptiveDelay) : AdaptiveDelay :=
  { s with currentDelay := s.baseDelay, successCount := 0,
           failureCount := 0, delayHistory := [] }

/-- `getAverageDelay()` (lines 69-73): `baseDelay` when the history is
empty, else the rounded mean of the history. -/
def getAverageDelay (s : AdaptiveDelay) : ℚ :=
  if s.delayHistory.isEmpty then s.baseDelay
  else ⌊(s.delayHistory.sum / s.delayHistory.length) + 1 / 2⌋

end AdaptiveDelay

/-- One mutating call of the `AdaptiveDelay` public API. -/
inductive DelayOp
  | wait
  | recordSuccess
  | recordFailure
  | reset
deriving DecidableEq, Repr

/-- Apply one API call to a delay state. -/
def applyDelayOp (s : AdaptiveDelay) : DelayOp → AdaptiveDelay
  | DelayOp.wait => s.wait.2
  | DelayOp.recordSuccess => s.recordSuccess
  | DelayOp.recordFailure => s.recordFailure
  | DelayOp.reset => s.reset

/-- Apply a sequence of API calls, first element first. -/
def applyDelayOps (s : AdaptiveDelay) : List DelayOp → AdaptiveDelay
  | [] => s
  | op :: ops => applyDelayOps (applyDelayOp s op) ops

/-- The delay-state invariant: nonnegative lower bound, ordered bounds, base
and current delay inside them. -/
def DelayWithinBounds (s : AdaptiveDelay) : Prop :=
  0 ≤ s.minDelay ∧ s.minDelay ≤ s.baseDelay ∧ s.baseDelay ≤ s.maxDelay ∧
  s.minDelay ≤ s.currentDelay ∧ s.currentDelay ≤ s.maxDelay

theorem adjustDelay_currentDelay (s : AdaptiveDelay) :
    s.adjustDelay.currentDelay =
      if 3 ≤ s.successCount then max s.minDelay (s.currentDelay * (0.8 : ℚ))
      else if 2 ≤ s.failureCount then
        min s.maxDelay (s.currentDelay * (1.5 : ℚ))
      else s.currentDelay := by
  simp only [AdaptiveDelay.adjustDelay]
  split_ifs <;> rfl

theorem adjustDelay_sideFields (s : AdaptiveDelay) :
    s.adjustDelay.baseDelay = s.baseDelay ∧
    s.adjustDelay.minDelay = s.minDelay ∧
    s.adjustDelay.maxDelay = s.maxDelay := by
  simp only [AdaptiveDelay.adjustDelay]
  split_ifs <;> exact ⟨rfl, rfl, rfl⟩

theorem adjustDelay_bounds (s : AdaptiveDelay)
    (h0 : 0 ≤ s.minDelay) (hmx : s.minDelay ≤ s.maxDelay)
    (h1 : s.minDelay ≤ s.currentDelay) (h2 : s.currentDelay ≤ s.maxDelay) :
    s.minDelay ≤ s.adjustDelay.currentDelay ∧
    s.adjustDelay.currentDelay ≤ s.maxDelay := by
  have hc : 0 ≤ s.currentDelay := le_trans h0 h1
  rw [adjustDelay_currentDelay]
  split_ifs
  · refine ⟨le_max_left _ _, max_le hmx (le_trans ?_ h2)⟩
    nlinarith
  · refine ⟨le_min hmx (le_trans h1 ?_), min_le_left _ _⟩
    nlinarith
  · exact ⟨h1, h2⟩

theorem applyDelayOp_fields (s : AdaptiveDelay) (op : DelayOp) :
    (applyDelayOp s op).baseDelay = s.baseDelay ∧
    (applyDelayOp s op).minDelay = s.minDelay ∧
    (applyDelayOp s op).maxDelay = s.maxDelay := by
  cases op <;>
    simp [applyDelayOp, AdaptiveDelay.wait, AdaptiveDelay.recordSuccess,
      AdaptiveDelay.recordFailure, AdaptiveDelay.reset,
      AdaptiveDelay.adjustDelay] <;>
    split_ifs <;> simp

theorem applyDelayOp_within (s : AdaptiveDelay) (h : DelayWithinBounds s)
    (op : DelayOp) : DelayWithinBounds (applyDelayOp s op) := by
  obtain ⟨h0, hb1, hb2, h1, h2⟩ := h
  have hmx : s.minDelay ≤ s.maxDelay := le_trans hb1 hb2
  obtain ⟨f1, f2, f3⟩ := applyDelayOp_fields s op
  unfold DelayWithinBounds
  rw [f1, f2, f3]
  refine ⟨h0, hb1, hb2, ?_, ?_⟩
  · cases op with
    | wait => exact h1
    | recordSuccess =>
        exact (adjustDelay_bounds
          { s with successCount := s.successCount + 1,
                   failureCount := s.failureCount - 1 } h0 hmx h1 h2).1
    | recordFailure =>
        exact (adjustDelay_bounds
          { s with failureCount := s.failureCount + 1,
                   successCount := s.successCount - 1 } h0 hmx h1 h2).1
    | reset => exact hb1
  · cases op with
    | wait => exact h2
    | recordSuccess =>
        exact (adjustDelay_bounds
          { s with successCount := s.successCount + 1,
                   failureCount := s.failureCount - 1 } h0 hmx h1 h2).2
    | recordFailure =>
        exact (adjustDelay_bounds
          { s with failureCount := s.failureCount + 1,
                   successCount := s.successCount - 1 } h0 hmx h1 h2).2
    | reset => exact hb2

theorem applyDelayOps_within (ops : List DelayOp) :
    ∀ s : AdaptiveDelay, DelayWithinBounds s →
      DelayWithinBounds (applyDelayOps s ops) := by
  induction ops with
  | nil => intro s h; exact h
  | cons op rest ih =>
      intro s h
      exact ih (applyDelayOp s op) (applyDelayOp_within s h op)

theorem applyDelayOps_fields (ops : List DelayOp) :
    ∀ s : AdaptiveDelay,
      (applyDelayOps s ops).baseDelay = s.baseDelay ∧
      (applyDelayOps s ops).minDelay = s.minDelay ∧
      (applyDelayOps s ops).maxDelay = s.maxDelay := by
  induction ops with
  | nil => intro s; exact ⟨rfl, rfl, rfl⟩
  | cons op rest ih =>
      intro s
      obtain ⟨e1, e2, e3⟩ := ih (applyDelayOp s op)
      obtain ⟨f1, f2, f3⟩ := applyDelayOp_fields s op
      exact ⟨e1.trans f1, e2.trans f2, e3.trans f3⟩

/-- C5: for `AdaptiveDelay(100, 50, 1000)`: three consecutive
`recordSuccess()` calls bring the current delay strictly below 100 (to 80),
and it never drops below 50 under any number of successes; three consecutive
`recordFailure()` calls raise it strictly above 100 (to 225), and it never
exceeds 1000 under any number of failures; `reset()` always restores the
current delay to the base (100 here) and both streak counters to 0. -/
theorem adaptive_delay_streak_behaviour :
    ((AdaptiveDelay.init 100 50 1000).recordSuccess.recordSuccess.recordSuccess).currentDelay
        = 80 ∧
    ((AdaptiveDelay.init 100 50 1000).recordSuccess.recordSuccess.recordSuccess).currentDelay
        < 100 ∧
    (∀ n : Nat, 50 ≤
      (applyDelayOps (AdaptiveDelay.init 100 50 1000)
        (List.replicate n DelayOp.recordSuccess)).currentDelay) ∧
    ((AdaptiveDelay.init 100 50 1000).recordFailure.recordFailure.recordFailure).currentDelay
        = 225 ∧
    100 <
      ((AdaptiveDelay.init 100 50 1000).recordFailure.recordFailure.recordFailure).currentDelay ∧
    (∀ n : Nat,
      (applyDelayOps (AdaptiveDelay.init 100 50 1000)
        (List.replicate n DelayOp.recordFailure)).currentDelay ≤ 1000) ∧
    (∀ s : AdaptiveDelay, s.reset.currentDelay = s.baseDelay ∧
      s.reset.successCount = 0 ∧ s.reset.failureCount = 0) ∧
    (AdaptiveDelay.init 100 50 1000).baseDelay = 100 := by
  have hval80 :
      ((AdaptiveDelay.init 100 50 1000).recordSuccess.recordSuccess.recordSuccess).currentDelay
        = 80 := by
    simp [AdaptiveDelay.init, AdaptiveDelay.recordSuccess,
      AdaptiveDelay.adjustDelay]
    norm_num
  have hval225 :
      ((AdaptiveDelay.init 100 50 1000).recordFailure.recordFailure.recordFailure).currentDelay
        = 225 := by
    simp [AdaptiveDelay.init, AdaptiveDelay.recordFailure,
      AdaptiveDelay.adjustDelay]
    norm_num
  have hinit : DelayWithinBounds (AdaptiveDelay.init 100 50 1000) := by
    norm_num [DelayWithinBounds, AdaptiveDelay.init]
  refine ⟨hval80, by rw [hval80]; norm_num, ?_, hval225,
    by rw [hval225]; norm_num, ?_, ?_, rfl⟩
  · intro n
    have hw := applyDelayOps_within
      (List.replicate n DelayOp.recordSuccess)
      (AdaptiveDelay.init 100 50 1000) hinit
    have hf := applyDelayOps_fields
      (List.replicate n DelayOp.recordSuccess)
      (AdaptiveDelay.init 100 50 1000)
    have := hw.2.2.2.1
    rw [hf.2.1] at this
    exact this
  · intro n
    have hw := applyDelayOps_within
      (List.replicate n DelayOp.recordFailure)
      (AdaptiveDelay.init 100 50 1000) hinit
    have hf := applyDelayOps_fields
      (List.replicate n DelayOp.recordFailure)
      (AdaptiveDelay.init 100 50 1000)
    have := hw.2.2.2.2
    rw [hf.2.2] at this
    exact this
  · intro s
    exact ⟨rfl, rfl, rfl⟩

/-- C8 counterexample: the claim quantifies over every construction with
`min ≤ base ≤ max`.  For `AdaptiveDelay(-95, -100, -90)` (which satisfies
`-100 ≤ -95 ≤ -90`) two `recordFailure()` calls drive the current delay to
`-142.5`, strictly below the configured minimum `-100` — the `×1.5` growth
step moves a negative delay downward, so the invariant fails. -/
theorem adaptive_delay_invariant_fails_for_negative_min :
    ((-100 : ℚ) ≤ -95 ∧ (-95 : ℚ) ≤ -90) ∧
    (applyDelayOps (AdaptiveDelay.init (-95) (-100) (-90))
        [DelayOp.recordFailure, DelayOp.recordFailure]).currentDelay <
      (AdaptiveDelay.init (-95) (-100) (-90)).minDelay := by
  refine ⟨⟨by norm_num, by norm_num⟩, ?_⟩
  simp [applyDelayOps, applyDelayOp, AdaptiveDelay.init,
    AdaptiveDelay.recordFailure, AdaptiveDelay.adjustDelay]
  norm_num

/-- C8 amended: for every `AdaptiveDelay` constructed with
`0 ≤ min ≤ base ≤ max`, the invariant `min ≤ currentDelay ≤ max` holds
initially and is preserved by every finite sequence of `wait`,
`recordSuccess`, `recordFailure` and `reset` calls. -/
theorem adaptive_delay_invariant (b mn mx : ℚ) (h0 : 0 ≤ mn) (h1 : mn ≤ b)
    (h2 : b ≤ mx) (ops : List DelayOp) :
    mn ≤ (applyDelayOps (AdaptiveDelay.init b mn mx) ops).currentDelay ∧
    (applyDelayOps (AdaptiveDelay.init b mn mx) ops).currentDelay ≤ mx := by
  have hinit : DelayWithinBounds (AdaptiveDelay.init b mn mx) :=
    ⟨h0, h1, h2, h1, h2⟩
  have hw := applyDelayOps_within ops (AdaptiveDelay.init b mn mx) hinit
  have hf := applyDelayOps_fields ops (AdaptiveDelay.init b mn mx)
  constructor
  · have := hw.2.2.2.1
    rw [hf.2.1] at this
    exact this
  · have := hw.2.2.2.2
    rw [hf.2.2] at this
    exact this

theorem adaptive_delay_invariant_witness :
    (0 : ℚ) ≤ 50 ∧ (50 : ℚ) ≤ 100 ∧ (100 : ℚ) ≤ 1000 ∧
    (50 ≤ (applyDelayOps (AdaptiveDelay.init 100 50 1000)
        [DelayOp.recordFailure, DelayOp.recordFailure,
         DelayOp.wait, DelayOp.recordSuccess]).currentDelay ∧
     (applyDelayOps (AdaptiveDelay.init 100 50 1000)
        [DelayOp.recordFailure, DelayOp.recordFailure,
         DelayOp.wait, DelayOp.recordSuccess]).currentDelay ≤ 1000) :=
  ⟨by norm_num, by norm_num, by norm_num,
   adaptive_delay_invariant 100 50 1000 (by norm_num) (by norm_num)
     (by norm_num)
     [DelayOp.recordFailure, DelayOp.recordFailure,
      DelayOp.wait, DelayOp.recordSuccess]⟩

/-- State of `ContextualDelay` (`src/services/adaptive-delay.ts` lines
90-143): the inherited base `AdaptiveDelay` instance plus the
`contextMap : Map<string, AdaptiveDelay>` modelled as an association list in
insertion order. -/
structure ContextualDelay where
  base : AdaptiveDelay
  contextMap : List (String × AdaptiveDelay)
deriving DecidableEq, Repr

namespace ContextualDelay

/-- `new ContextualDelay(base, min, max)`: inherited constructor, empty map. -/
def init (b mn mx : ℚ) : ContextualDelay :=
  { base := AdaptiveDelay.init b mn mx, contextMap := [] }

/-- `contextMap.get(k)` on the association list. -/
def mapGet (m : List (String × AdaptiveDelay)) (k : String) :
    Option AdaptiveDelay :=
  match m with
  | [] => none
  | (k', v) :: rest => if k' = k then some v else mapGet rest k

/-- In-place mutation of the entry under `k` (JavaScript map values are
mutated through the object reference). -/
def mapPut (m : List (String × AdaptiveDelay)) (k : String)
    (v : AdaptiveDelay) : List (String × AdaptiveDelay) :=
  match m with
  | [] => []
  | (k', v') :: rest =>
      if k' = k then (k', v) :: rest else (k', v') :: mapPut rest k v

/-- `wait(context?)` (lines 93-107): without a key, wait on the inherited
instance; with a key, lazily create that context's instance (sharing
base/min/max) and wait on it.  Returns the realized delay. -/
def wait (s : ContextualDelay) (context : Option String) :
    ℤ × ContextualDelay :=
  match context with
  | none =>
      let (d, b') := s.base.wait
      (d, { s with base := b' })
  | some k =>
      match mapGet s.contextMap k with
      | none =>
          let fresh := AdaptiveDelay.init s.base.baseDelay s.base.minDelay
            s.base.maxDelay
          let (d, after) := fresh.wait
          (d, { s with contextMap := s.contextMap ++ [(k, after)] })
      | some inst =>
          let (d, after) := inst.wait
          (d, { s with contextMap := mapPut s.contextMap k after })

/-- `recordSuccess(context?)` (lines 109-118): without a key, update the
inherited instance; with a key, update that context's instance only if it
already exists — a missing key is a no-op. -/
def recordSuccess (s : ContextualDelay) (context : Option String) :
    ContextualDelay :=
  match context with
  | none => { s with base := s.base.recordSuccess }
  | some k =>
      match mapGet s.contextMap k with
      | none => s
      | some inst =>
          { s with contextMap := mapPut s.contextMap k inst.recordSuccess }

/-- `recordFailure(context?)` (lines 120-129): same shape as
`recordSuccess`; a missing key is a no-op. -/
def recordFailure (s : ContextualDelay) (context : Option String) :
    ContextualDelay :=
  match context with
  | none => { s with base := s.base.recordFailure }
  | some k =>
      match mapGet s.contextMap k with
      | none => s
      | some inst =>
          { s with contextMap := mapPut s.contextMap k inst.recordFailure }

end ContextualDelay

/-- C7 counterexample: on a freshly constructed `ContextualDelay(100, 50,
1000)`, `recordFailure("k")` does **not** lazily create the per-key
instance — it is a no-op (`contextMap.get` misses and nothing is stored), so
after two `recordFailure("k")` calls the realized `wait("k")` is exactly the
base delay 100, not longer than it. -/
theorem contextual_record_failure_not_lazy :
    ((ContextualDelay.init 100 50 1000).recordFailure (some "k")
        = ContextualDelay.init 100 50 1000) ∧
    ((((ContextualDelay.init 100 50 1000).recordFailure
        (some "k")).recordFailure (some "k")).wait (some "k")).1 = 100 ∧
    ¬ (100 : ℤ) > 100 := by
  refine ⟨?_, ?_, by norm_num⟩
  · simp [ContextualDelay.init, ContextualDelay.recordFailure,
      ContextualDelay.mapGet]
  · simp [ContextualDelay.init, ContextualDelay.recordFailure,
      ContextualDelay.wait, ContextualDelay.mapGet, AdaptiveDelay.init,
      AdaptiveDelay.wait, AdaptiveDelay.getCurrentDelay]
    norm_num

/-- C7 amended: `recordSuccess(k)` / `recordFailure(k)` apply the streak
update to the per-key instance only when that instance already exists; they
do not lazily create it — on a missing key both are no-ops (lazy creation
happens in `wait(k)` only).  Hence on a fresh `ContextualDelay(100, 50,
1000)` two `recordFailure("k")` calls followed by `wait("k")` realize
exactly the base delay 100, whereas after an initial `wait("k")` the same
two `recordFailure("k")` calls make the next `wait("k")` realize 150, which
is longer than the base delay. -/
theorem contextual_record_updates_only_existing :
    (∀ (s : ContextualDelay) (k : String),
      ContextualDelay.mapGet s.contextMap k = none →
      s.recordFailure (some k) = s ∧ s.recordSuccess (some k) = s) ∧
    (((((ContextualDelay.init 100 50 1000).wait
          (some "k")).2.recordFailure (some "k")).recordFailure
            (some "k")).wait (some "k")).1 = 150 ∧
    (100 : ℤ) < 150 := by
  refine ⟨?_, ?_, by norm_num⟩
  · intro s k h
    constructor
    · simp [ContextualDelay.recordFailure, h]
    · simp [ContextualDelay.recordSuccess, h]
  · simp [ContextualDelay.init, ContextualDelay.wait,
      ContextualDelay.recordFailure, ContextualDelay.mapGet,
      ContextualDelay.mapPut, AdaptiveDelay.init, AdaptiveDelay.wait,
      AdaptiveDelay.getCurrentDelay, AdaptiveDelay.recordFailure,
      AdaptiveDelay.adjustDelay, AdaptiveDelay.maxHistorySize]
    norm_num

theorem contextual_record_updates_only_existing_witness :
    ContextualDelay.mapGet
      (ContextualDelay.init 100 50 1000).contextMap "a" = none ∧
    ((ContextualDelay.init 100 50 1000).recordFailure (some "a")
        = ContextualDelay.init 100 50 1000 ∧
     (ContextualDelay.init 100 50 1000).recordSuccess (some "a")
        = ContextualDelay.init 100 50 1000) :=
  ⟨rfl,
   contextual_record_updates_only_existing.1
     (ContextualDelay.init 100 50 1000) "a" rfl⟩

/-- Events observable during a `withRetry` run (`src/services/error-handler.ts`):
each invocation of the wrapped function, each call of the `onRetry` hook
(with the error and the retry number), and each back-off sleep with its
duration in milliseconds. -/
inductive RetryEv (E : Type)
  | invoke (attempt : Nat)
  | onRetryCall (e : E) (retryCount : Nat)
  | sleep (ms : Nat)
deriving DecidableEq, Repr

/-- Whether a retry event is an invocation of the wrapped function. -/
def RetryEv.isInvoke {E : Type} : RetryEv E → Bool
  | RetryEv.invoke _ => true
  | _ => false

/-- Whether a retry event is a call of the `onRetry` hook. -/
def RetryEv.isOnRetry {E : Type} : RetryEv E → Bool
  | RetryEv.onRetryCall _ _ => true
  | _ => false

/-- The loop of `withRetry`
(`for (let attempt = 0; attempt <= maxRetries; attempt++)`): `remaining`
counts the attempts left after the current one
(`remaining = maxRetries - attempt`), so `remaining = 0` is exactly the
source's `attempt === maxRetries` exhaustion test.  On a failure that is
terminal (exhausted, or `shouldRetry` refuses) the last error is re-thrown
unchanged; otherwise the `onRetry` hook (when supplied) is called with
`(error, attempt + 1)`, the back-off delay (`retryDelay * 2^attempt` when
exponential, flat `retryDelay` otherwise) is slept, and the loop retries.
The wrapped function is given the attempt index so that every possible
behaviour of a real `fn` can be represented. -/
def withRetryLoop {E A : Type} (fn : Nat → Except E A)
    (retryDelay : Nat) (expBackoff : Bool) (shouldRetry : E → Bool)
    (hasOnRetry : Bool) :
    Nat → Nat → List (RetryEv E) → Except E A × List (RetryEv E)
  | remaining, attempt, acc =>
    let acc1 := acc ++ [RetryEv.invoke attempt]
    match fn attempt, remaining with
    | Except.ok a, _ => (Except.ok a, acc1)
    | Except.error e, 0 => (Except.error e, acc1)
    | Except.error e, r + 1 =>
        if !shouldRetry e then (Except.error e, acc1)
        else
          let acc2 := if hasOnRetry
            then acc1 ++ [RetryEv.onRetryCall e (attempt + 1)] else acc1
          let d := if expBackoff then retryDelay * 2 ^ attempt else retryDelay
          withRetryLoop fn retryDelay expBackoff shouldRetry hasOnRetry
            r (attempt + 1) (acc2 ++ [RetryEv.sleep d])

/-- `withRetry(fn, options)` (`src/services/error-handler.ts` lines
499-536 of the concatenated `utils` source): run the attempt loop from
attempt 0 with `maxRetries` retries left.  The source's option defaults are
`maxRetries = 3`, `retryDelay = 500`, `exponentialBackoff = true`,
`shouldRetry = () => true`. -/
def withRetry {E A : Type} (fn : Nat → Except E A) (maxRetries : Nat)
    (retryDelay : Nat) (expBackoff : Bool) (shouldRetry : E → Bool)
    (hasOnRetry : Bool) : Except E A × List (RetryEv E) :=
  withRetryLoop fn retryDelay expBackoff shouldRetry hasOnRetry
    maxRetries 0 []

/-- C6: `withRetry(fn, {maxRetries: 2})` on a function that always rejects
with error `e` invokes `fn` exactly 3 times (1 initial attempt + 2 retries),
finally rejects with that same error `e`, unchanged and unwrapped, and —
with an `onRetry` hook supplied — calls the hook exactly once per retry
(with retry numbers 1 and 2) and not for the terminal failure. -/
theorem withRetry_exhausts_and_rethrows {E A : Type} (e : E) :
    (withRetry (fun _ => (Except.error e : Except E A)) 2 500 true
        (fun _ => true) true).1 = Except.error e ∧
    (withRetry (fun _ => (Except.error e : Except E A)) 2 500 true
        (fun _ => true) true).2 =
      [RetryEv.invoke 0, RetryEv.onRetryCall e 1, RetryEv.sleep 500,
       RetryEv.invoke 1, RetryEv.onRetryCall e 2, RetryEv.sleep 1000,
       RetryEv.invoke 2] ∧
    ((withRetry (fun _ => (Except.error e : Except E A)) 2 500 true
        (fun _ => true) true).2.filter RetryEv.isInvoke).length = 3 ∧
    (withRetry (fun _ => (Except.error e : Except E A)) 2 500 true
        (fun _ => true) true).2.filter RetryEv.isOnRetry =
      [RetryEv.onRetryCall e 1, RetryEv.onRetryCall e 2] := by
  refine ⟨?_, ?_, ?_, ?_⟩ <;>
    simp [withRetry, withRetryLoop, RetryEv.isInvoke, RetryEv.isOnRetry,
      List.filter]

namespace CircuitBreaker

/-- The three breaker states `"closed" | "open" | "half-open"`
(`src/services/error-handler.ts`); `opened` stands for the source's
`"open"`. -/
inductive CBMode
  | closed
  | opened
  | halfOpen
deriving DecidableEq, Repr

/-- The merged options of the constructor: the caller's partial options
over defaults `failureThreshold = 5`, `resetTimeout = 60000`,
`halfOpenMaxAttempts = 3`. -/
structure CBOptions where
  failureThreshold : Nat
  resetTimeout : Nat
  halfOpenMaxAttempts : Nat
deriving DecidableEq, Repr

/-- `new CircuitBreaker(options)`: spread of the supplied options over the
defaults. -/
def mkOptions (ft rt ha : Option Nat) : CBOptions :=
  { failureThreshold := ft.getD 5, resetTimeout := rt.getD 60000,
    halfOpenMaxAttempts := ha.getD 3 }

/-- The mutable breaker state: failure counter, last-failure timestamp,
mode, half-open trial counter. -/
structure CBState where
  failures : Nat
  lastFailureTime : Option Nat
  mode : CBMode
  halfOpenAttempts : Nat
deriving DecidableEq, Repr

/-- Initial state: zero failures, no timestamp, closed (also the effect of
`reset()`). -/
def CBState.init : CBState :=
  { failures := 0, lastFailureTime := none, mode := CBMode.closed,
    halfOpenAttempts := 0 }

/-- `getState()`: the state string. -/
def getState (s : CBState) : String :=
  match s.mode with
  | CBMode.closed => "closed"
  | CBMode.opened => "open"
  | CBMode.halfOpen => "half-open"

/-- `shouldAttemptReset()`: false without a recorded failure, else
`Date.now() - lastFailureTime >= resetTimeout` (truncated subtraction, as
the clock never runs backwards past a recorded failure). -/
def shouldAttemptReset (o : CBOptions) (s : CBState) (now : Nat) : Bool :=
  match s.lastFailureTime with
  | none => false
  | some t => decide (o.resetTimeout ≤ now - t)

/-- `onSuccess()`: while half-open, count the trial and fully `reset()` once
`halfOpenMaxAttempts` trials succeeded; in every case clear the failure
counter. -/
def onSuccess (o : CBOptions) (s : CBState) : CBState :=
  let s1 :=
    if s.mode = CBMode.halfOpen then
      let s' := { s with halfOpenAttempts := s.halfOpenAttempts + 1 }
      if o.halfOpenMaxAttempts ≤ s'.halfOpenAttempts then CBState.init
      else s'
    else s
  { s1 with failures := 0 }

/-- `onFailure()`: count the failure and stamp the time; open once the
threshold is reached; a failure while half-open also reopens. -/
def onFailure (o : CBOptions) (s : CBState) (now : Nat) : CBState :=
  let s1 := { s with failures := s.failures + 1, lastFailureTime := some now }
  let s2 :=
    if o.failureThreshold ≤ s1.failures then { s1 with mode := CBMode.opened }
    else s1
  if s2.mode = CBMode.halfOpen then { s2 with mode := CBMode.opened } else s2

/-- Result of one `execute()` call: the wrapped operation's success, its
failure, or the immediate circuit-open rejection. -/
inductive CBResult
  | ok
  | err
  | circuitOpen
deriving DecidableEq, Repr

/-- The body of `execute()` once the call is allowed to proceed: invoke the
wrapped function and apply `onSuccess`/`onFailure`. -/
def executeAttempt (o : CBOptions) (s : CBState) (now : Nat)
    (succeeds : Bool) : CBResult × Bool × CBState :=
  if succeeds then (CBResult.ok, true, onSuccess o s)
  else (CBResult.err, true, onFailure o s now)

/-- `execute(fn)` at time `now`, where `succeeds` is the outcome the wrapped
function would have; the middle component records whether the wrapped
function was invoked at all.  While open: reject immediately unless
`shouldAttemptReset`, in which case move to half-open (clearing the trial
counter) and proceed. -/
def execute (o : CBOptions) (s : CBState) (now : Nat) (succeeds : Bool) :
    CBResult × Bool × CBState :=
  if s.mode = CBMode.opened then
    if shouldAttemptReset o s now then
      executeAttempt o
        { s with mode := CBMode.halfOpen, halfOpenAttempts := 0 } now succeeds
    else (CBResult.circuitOpen, false, s)
  else executeAttempt o s now succeeds

end CircuitBreaker

/-- C4: with `CircuitBreaker({failureThreshold: 3, resetTimeout: 1000})`,
three consecutive failing `execute()` calls leave `getState() = "open"`
(with the last failure time recorded); a further `execute()` strictly
before 1000 ms have elapsed since that failure rejects with the
circuit-open result without invoking the wrapped function and leaves the
state untouched; an `execute()` at least 1000 ms after the failure does
invoke the wrapped function and moves the breaker to half-open. -/
theorem circuit_breaker_opens_and_half_opens (t1 t2 t3 : Nat) :
    CircuitBreaker.getState
      ((CircuitBreaker.execute (CircuitBreaker.mkOptions (some 3) (some 1000) none)
        ((CircuitBreaker.execute (CircuitBreaker.mkOptions (some 3) (some 1000) none)
          ((CircuitBreaker.execute (CircuitBreaker.mkOptions (some 3) (some 1000) none)
            CircuitBreaker.CBState.init t1 false).2.2)
          t2 false).2.2)
        t3 false).2.2) = "open" ∧
    ((CircuitBreaker.execute (CircuitBreaker.mkOptions (some 3) (some 1000) none)
        ((CircuitBreaker.execute (CircuitBreaker.mkOptions (some 3) (some 1000) none)
          ((CircuitBreaker.execute (CircuitBreaker.mkOptions (some 3) (some 1000) none)
            CircuitBreaker.CBState.init t1 false).2.2)
          t2 false).2.2)
        t3 false).2.2).lastFailureTime = some t3 ∧
    (∀ (now : Nat) (b : Bool), now < t3 + 1000 →
      (CircuitBreaker.execute (CircuitBreaker.mkOptions (some 3) (some 1000) none)
        ((CircuitBreaker.execute (CircuitBreaker.mkOptions (some 3) (some 1000) none)
          ((CircuitBreaker.execute (CircuitBreaker.mkOptions (some 3) (some 1000) none)
            ((CircuitBreaker.execute (CircuitBreaker.mkOptions (some 3) (some 1000) none)
              CircuitBreaker.CBState.init t1 false).2.2)
            t2 false).2.2)
          t3 false).2.2)
        now b) =
      (CircuitBreaker.CBResult.circuitOpen, false,
        (CircuitBreaker.execute (CircuitBreaker.mkOptions (some 3) (some 1000) none)
          ((CircuitBreaker.execute (CircuitBreaker.mkOptions (some 3) (some 1000) none)
            ((CircuitBreaker.execute (CircuitBreaker.mkOptions (some 3) (some 1000) none)
              CircuitBreaker.CBState.init t1 false).2.2)
            t2 false).2.2)
          t3 false).2.2)) ∧
    (∀ (now : Nat) (b : Bool), t3 + 1000 ≤ now →
      (CircuitBreaker.execute (CircuitBreaker.mkOptions (some 3) (some 1000) none)
        ((CircuitBreaker.execute (CircuitBreaker.mkOptions (some 3) (some 1000) none)
          ((CircuitBreaker.execute (CircuitBreaker.mkOptions (some 3) (some 1000) none)
            ((CircuitBreaker.execute (CircuitBreaker.mkOptions (some 3) (some 1000) none)
              CircuitBreaker.CBState.init t1 false).2.2)
            t2 false).2.2)
          t3 false).2.2)
        now b).2.1 = true) ∧
    (∀ now : Nat, t3 + 1000 ≤ now →
      ((CircuitBreaker.execute (CircuitBreaker.mkOptions (some 3) (some 1000) none)
        ((CircuitBreaker.execute (CircuitBreaker.mkOptions (some 3) (some 1000) none)
          ((CircuitBreaker.execute (CircuitBreaker.mkOptions (some 3) (some 1000) none)
            ((CircuitBreaker.execute (CircuitBreaker.mkOptions (some 3) (some 1000) none)
              CircuitBreaker.CBState.init t1 false).2.2)
            t2 false).2.2)
          t3 false).2.2)
        now true).2.2).mode = CircuitBreaker.CBMode.halfOpen) := by
  have hs3 :
      (CircuitBreaker.execute (CircuitBreaker.mkOptions (some 3) (some 1000) none)
        ((CircuitBreaker.execute (CircuitBreaker.mkOptions (some 3) (some 1000) none)
          ((CircuitBreaker.execute (CircuitBreaker.mkOptions (some 3) (some 1000) none)
            CircuitBreaker.CBState.init t1 false).2.2)
          t2 false).2.2)
        t3 false).2.2 =
      { failures := 3, lastFailureTime := some t3,
        mode := CircuitBreaker.CBMode.opened, halfOpenAttempts := 0 } := by
    simp [CircuitBreaker.execute, CircuitBreaker.executeAttempt,
      CircuitBreaker.onFailure, CircuitBreaker.mkOptions,
      CircuitBreaker.CBState.init, CircuitBreaker.shouldAttemptReset]
  rw [hs3]
  refine ⟨rfl, rfl, ?_, ?_, ?_⟩
  · intro now b h
    have hlt : ¬ (1000 ≤ now - t3) := by omega
    simp [CircuitBreaker.execute, CircuitBreaker.shouldAttemptReset,
      CircuitBreaker.mkOptions, hlt]
  · intro now b h
    have hge : 1000 ≤ now - t3 := by omega
    cases b <;>
      simp [CircuitBreaker.execute, CircuitBreaker.shouldAttemptReset,
        CircuitBreaker.executeAttempt, CircuitBreaker.mkOptions, hge]
  · intro now h
    have hge : 1000 ≤ now - t3 := by omega
    simp [CircuitBreaker.execute, CircuitBreaker.shouldAttemptReset,
      CircuitBreaker.executeAttempt, CircuitBreaker.onSuccess,
      CircuitBreaker.mkOptions, CircuitBreaker.CBState.init, hge]

theorem circuit_breaker_opens_and_half_opens_witness :
    CircuitBreaker.getState
      ((CircuitBreaker.execute (CircuitBreaker.mkOptions (some 3) (some 1000) none)
        ((CircuitBreaker.execute (CircuitBreaker.mkOptions (some 3) (some 1000) none)
          ((CircuitBreaker.execute (CircuitBreaker.mkOptions (some 3) (some 1000) none)
            CircuitBreaker.CBState.init 0 false).2.2)
          1 false).2.2)
        2 false).2.2) = "open" ∧
    (500 : Nat) < 2 + 1000 ∧
    (CircuitBreaker.execute (CircuitBreaker.mkOptions (some 3) (some 1000) none)
      ((CircuitBreaker.execute (CircuitBreaker.mkOptions (some 3) (some 1000) none)
        ((CircuitBreaker.execute (CircuitBreaker.mkOptions (some 3) (some 1000) none)
          ((CircuitBreaker.execute (CircuitBreaker.mkOptions (some 3) (some 1000) none)
            CircuitBreaker.CBState.init 0 false).2.2)
          1 false).2.2)
        2 false).2.2)
      500 false) =
    (CircuitBreaker.CBResult.circuitOpen, false,
      (CircuitBreaker.execute (CircuitBreaker.mkOptions (some 3) (some 1000) none)
        ((CircuitBreaker.execute (CircuitBreaker.mkOptions (some 3) (some 1000) none)
          ((CircuitBreaker.execute (CircuitBreaker.mkOptions (some 3) (some 1000) none)
            CircuitBreaker.CBState.init 0 false).2.2)
          1 false).2.2)
        2 false).2.2) ∧
    (2 : Nat) + 1000 ≤ 1500 ∧
    (CircuitBreaker.execute (CircuitBreaker.mkOptions (some 3) (some 1000) none)
      ((CircuitBreaker.execute (CircuitBreaker.mkOptions (some 3) (some 1000) none)
        ((CircuitBreaker.execute (CircuitBreaker.mkOptions (some 3) (some 1000) none)
          ((CircuitBreaker.execute (CircuitBreaker.mkOptions (some 3) (some 1000) none)
            CircuitBreaker.CBState.init 0 false).2.2)
          1 false).2.2)
        2 false).2.2)
      1500 true).2.1 = true ∧
    ((CircuitBreaker.execute (CircuitBreaker.mkOptions (some 3) (some 1000) none)
      ((CircuitBreaker.execute (CircuitBreaker.mkOptions (some 3) (some 1000) none)
        ((CircuitBreaker.execute (CircuitBreaker.mkOptions (some 3) (some 1000) none)
          ((CircuitBreaker.execute (CircuitBreaker.mkOptions (some 3) (some 1000) none)
            CircuitBreaker.CBState.init 0 false).2.2)
          1 false).2.2)
        2 false).2.2)
      1500 true).2.2).mode = CircuitBreaker.CBMode.halfOpen :=
  ⟨(circuit_breaker_opens_and_half_opens 0 1 2).1,
   by decide,
   (circuit_breaker_opens_and_half_opens 0 1 2).2.2.1 500 false (by decide),
   by decide,
   (circuit_breaker_opens_and_half_opens 0 1 2).2.2.2.1 1500 true (by decide),
   (circuit_breaker_opens_and_half_opens 0 1 2).2.2.2.2 1500 (by decide)⟩

/-- Observable steps inside one `ensureGhosttyFrontmost` run
(`src/utils.ts` lines 438-464): the activate call, the tagged adaptive
waits, and the frontmost-process-name query. -/
inductive FocusEv
  | activate
  | waitFor (tag : String)
  | queryName
deriving DecidableEq, Repr

/-- Whether a focus event is an `activate` call. -/
def FocusEv.isActivate : FocusEv → Bool
  | FocusEv.activate => true
  | _ => false

/-- Whether a focus event is a frontmost-name query. -/
def FocusEv.isQuery : FocusEv → Bool
  | FocusEv.queryName => true
  | _ => false

/-- `appName.toLowerCase()` modelled on the character list. -/
def jsToLowerCase (s : String) : String :=
  String.mk (s.data.map Char.toLower)

/-- One run's behaviour of the primitives used by
`ensureGhosttyFrontmost`: whether each of the two possible `activate`
invocations throws, and the outcome of the frontmost-name query (a thrown
error or the returned process name). -/
structure FrontmostEnv where
  activateOk : Bool
  query : Except Unit String
  retryActivateOk : Bool

/-- The `try` body of `ensureGhosttyFrontmost` (`src/utils.ts` lines
439-460): activate, wait on the `"frontmost"` tag, query the frontmost
process name; when the lower-cased name does not equal `"ghostty"`,
activate once more and wait on the `"retry-frontmost"` tag — without
querying again.  The result records the trace of issued steps and whether
an exception escaped the body. -/
def ensureFrontmostBody (env : FrontmostEnv) :
    List FocusEv × Except Unit Unit :=
  if !env.activateOk then ([FocusEv.activate], Except.error ())
  else
    match env.query with
    | Except.error _ =>
        ([FocusEv.activate, FocusEv.waitFor "frontmost", FocusEv.queryName],
         Except.error ())
    | Except.ok name =>
        if jsToLowerCase name ≠ "ghostty" then
          if !env.retryActivateOk then
            ([FocusEv.activate, FocusEv.waitFor "frontmost",
              FocusEv.queryName, FocusEv.activate], Except.error ())
          else
            ([FocusEv.activate, FocusEv.waitFor "frontmost",
              FocusEv.queryName, FocusEv.activate,
              FocusEv.waitFor "retry-frontmost"], Except.ok ())
        else
          ([FocusEv.activate, FocusEv.waitFor "frontmost",
            FocusEv.queryName], Except.ok ())

/-- `ensureGhosttyFrontmost` (`src/utils.ts` lines 438-464): the body above
wrapped in the source's `try/catch` whose catch block swallows every
exception, so the function always returns normally. -/
def ensureGhosttyFrontmost (env : FrontmostEnv) :
    List FocusEv × Except Unit Unit :=
  match ensureFrontmostBody env with
  | (tr, Except.error _) => (tr, Except.ok ())
  | (tr, Except.ok _) => (tr, Except.ok ())

/-- C9: `ensureGhosttyFrontmost` never throws — for every behaviour of the
underlying activate calls and frontmost-name query, including every
exception they raise, it returns normally; it never issues more than two
activate calls or more than one query; and when the query returns a name
that does not case-insensitively match "ghostty" (and the activates do not
throw), it performs exactly one corrective activate retry and proceeds
without re-verifying. -/
theorem ensure_frontmost_best_effort :
    (∀ env : FrontmostEnv,
      (ensureGhosttyFrontmost env).2 = Except.ok ()) ∧
    (∀ env : FrontmostEnv,
      ((ensureGhosttyFrontmost env).1.filter FocusEv.isActivate).length ≤ 2) ∧
    (∀ env : FrontmostEnv,
      ((ensureGhosttyFrontmost env).1.filter FocusEv.isQuery).length ≤ 1) ∧
    (∀ (env : FrontmostEnv) (name : String),
      env.activateOk = true → env.retryActivateOk = true →
      env.query = Except.ok name → jsToLowerCase name ≠ "ghostty" →
      (ensureGhosttyFrontmost env).1 =
        [FocusEv.activate, FocusEv.waitFor "frontmost", FocusEv.queryName,
         FocusEv.activate, FocusEv.waitFor "retry-frontmost"]) := by
  refine ⟨?_, ?_, ?_, ?_⟩
  · intro env
    rcases env with ⟨a1, q, a2⟩
    cases a1 <;> rcases q with ⟨⟩ | name <;> cases a2 <;>
      simp [ensureGhosttyFrontmost, ensureFrontmostBody] <;>
      split_ifs <;>
      simp
  · intro env
    rcases env with ⟨a1, q, a2⟩
    cases a1 <;> rcases q with ⟨⟩ | name <;> cases a2 <;>
      simp [ensureGhosttyFrontmost, ensureFrontmostBody,
        FocusEv.isActivate] <;>
      split_ifs <;>
      decide
  · intro env
    rcases env with ⟨a1, q, a2⟩
    cases a1 <;> rcases q with ⟨⟩ | name <;> cases a2 <;>
      simp [ensureGhosttyFrontmost, ensureFrontmostBody,
        FocusEv.isQuery] <;>
      split_ifs <;>
      decide
  · intro env name h1 h2 hq hname
    simp [ensureGhosttyFrontmost, ensureFrontmostBody, h1, h2, hq, hname]

theorem ensure_frontmost_best_effort_witness :
    (FrontmostEnv.mk true (Except.ok "Finder") true).activateOk = true ∧
    (FrontmostEnv.mk true (Except.ok "Finder") true).retryActivateOk = true ∧
    (FrontmostEnv.mk true (Except.ok "Finder") true).query
      = Except.ok "Finder" ∧
    jsToLowerCase "Finder" ≠ "ghostty" ∧
    (ensureGhosttyFrontmost (FrontmostEnv.mk true (Except.ok "Finder") true)).1
      = [FocusEv.activate, FocusEv.waitFor "frontmost", FocusEv.queryName,
         FocusEv.activate, FocusEv.waitFor "retry-frontmost"] ∧
    (ensureGhosttyFrontmost (FrontmostEnv.mk false (Except.error ()) false)).2
      = Except.ok () :=
  ⟨rfl, rfl, rfl, by decide,
   ensure_frontmost_best_effort.2.2.2
     (FrontmostEnv.mk true (Except.ok "Finder") true) "Finder"
     rfl rfl rfl (by decide),
   ensure_frontmost_best_effort.1
     (FrontmostEnv.mk false (Except.error ()) false)⟩
